import Mathlib

/-!
Verification of the bucket-brigade selection / state-machine / migration
orchestration core.

The Rust sources `src/app.rs`, `src/aws.rs` and `src/tui/mod.rs` are embedded
shallowly below.  Strings are Lean `String`s except in the restore-state
decoder, which works on `List Char` (the character sequence of the raw
status string) to keep every step kernel-computable.  Backend calls
(S3 listing, restore, copy, policy persistence, regex search) are external
collaborators and enter the model as an `Oracle` of response functions.
Machine integers (`i32` days, `i64` sizes, `usize` indices) are modelled as
`Int`/`Nat`; none of the embedded code can overflow them.
-/

set_option maxHeartbeats 1600000

/-- Storage tiers.  Modelled from the spec: `src/models.rs` is not part of the
provided sources; §3 of the spec fixes the closed set (Standard,
InfrequentAccess, Glacier-family, DeepArchive, Intelligent, Unknown) and that
only a subset is a valid migration target. -/
inductive StorageClassTier where
  | standard
  | infrequentAccess
  | glacierInstant
  | glacierFlexible
  | deepArchive
  | intelligent
  | unknown
  deriving DecidableEq, Repr

/-- The selectable migration targets.  Modelled from the spec (§3): the
selectable set excludes read-only/derived tiers.  The claims below depend only
on indexing into this list, never on its exact membership. -/
def StorageClassTier.selectable : List StorageClassTier :=
  [.standard, .infrequentAccess, .glacierInstant, .glacierFlexible, .deepArchive]

/-- Restore lifecycle state (`RestoreState` in `src/models.rs`, shape fixed by
spec §3); the expiry is the normalized timestamp rendered as text, kept as a
character list. -/
inductive RestoreState where
  | available
  | expired
  | inProgress (expiry : Option (List Char))
  deriving DecidableEq, Repr

/-- `BucketInfo` (spec §3). -/
structure BucketInfo where
  name : String
  region : Option String
  creation_date : Option String
  deriving DecidableEq, Repr

/-- `ObjectInfo` (spec §3). -/
structure ObjectInfo where
  key : String
  size : Int
  last_modified : Option String
  storage_class : StorageClassTier
  restore_state : Option RestoreState
  deriving DecidableEq, Repr

/-- Mask match kinds.  Modelled from the spec: `src/mask.rs` is not in the
provided sources; §3/§4.1 fix the four kinds.  Constructors correspond to the
source's `Prefix`, `Suffix`, `Contains`, `Regex`. -/
inductive MaskKind where
  | startsWith
  | endsWith
  | containsSub
  | regexp
  deriving DecidableEq, Repr

/-- `ObjectMask` (spec §3): name, pattern, kind, case-sensitivity flag. -/
structure ObjectMask where
  name : String
  pattern : String
  kind : MaskKind
  case_sensitive : Bool
  deriving DecidableEq, Repr

/-- Substring containment on character lists (Rust `str::contains`; the
patterns used by this program are ASCII, for which byte-level and
character-level containment coincide). -/
def containsSeq (hay pat : List Char) : Bool :=
  decide (pat <:+: hay)

/-- `ObjectMask::matches`.  Modelled from the spec (§4.1): case-folding is
applied to key and pattern first when `case_sensitive = false`; Prefix,
Suffix, Contains compare directly; Regex searches via the (external) regex
engine, which enters as the oracle function `rx`. -/
def ObjectMask.matches (rx : String → String → Bool) (m : ObjectMask) (key : String) : Bool :=
  let k := if m.case_sensitive then key else key.toLower
  let p := if m.case_sensitive then m.pattern else m.pattern.toLower
  match m.kind with
  | .startsWith => p.isPrefixOf k
  | .endsWith => k.endsWith p
  | .containsSub => containsSeq k.toList p.toList
  | .regexp => rx m.pattern key

/-- `MigrationPolicy`.  Modelled from the spec (§3): bucket name, mask, target
tier, scheduling flag, optional schedule value; created only via explicit
save. -/
structure MigrationPolicy where
  bucket : String
  mask : ObjectMask
  target_storage_class : StorageClassTier
  scheduled : Bool
  schedule : Option String
  deriving DecidableEq, Repr

/-- `PolicyStore`.  Modelled from the spec (§4.3): an append log mirrored in
memory; `add` persists immediately and appends, its I/O failure is modelled by
the oracle flag `addOk` (on failure nothing is appended). -/
structure PolicyStore where
  policies : List MigrationPolicy
  deriving DecidableEq, Repr

/-- `ActivePane` (`src/app.rs`). -/
inductive ActivePane where
  | buckets
  | objects
  | maskEditor
  | policies
  deriving DecidableEq, Repr

/-- `AppMode` (`src/app.rs`). -/
inductive AppMode where
  | browsing
  | editingMask
  | confirming
  | selectingStorageClass
  | showingHelp
  | viewingLog
  deriving DecidableEq, Repr

/-- `StorageIntent` (`src/app.rs`). -/
inductive StorageIntent where
  | transition
  | savePolicy
  deriving DecidableEq, Repr

/-- `MaskEditorField` (`src/app.rs`); `caseFld` is the source's `Case`. -/
inductive MaskEditorField where
  | name
  | pattern
  | mode
  | caseFld
  deriving DecidableEq, Repr

/-- `MaskEditorField::next`. -/
def MaskEditorField.next : MaskEditorField → MaskEditorField
  | .name => .pattern
  | .pattern => .mode
  | .mode => .caseFld
  | .caseFld => .name

/-- `MaskEditorField::previous`. -/
def MaskEditorField.previous : MaskEditorField → MaskEditorField
  | .name => .caseFld
  | .pattern => .name
  | .mode => .pattern
  | .caseFld => .mode

/-- `MaskDraft` (`src/app.rs`). -/
structure MaskDraft where
  name : String
  pattern : String
  kind : MaskKind
  case_sensitive : Bool
  deriving DecidableEq, Repr

/-- `MaskDraft::default` (`src/app.rs`): name "Untitled mask", empty pattern,
Prefix kind, case-insensitive. -/
def MaskDraft.default : MaskDraft :=
  { name := "Untitled mask", pattern := "", kind := .startsWith, case_sensitive := false }

/-- `PendingAction` (`src/app.rs`). -/
inductive PendingAction where
  | transition (target_class : StorageClassTier) (restore_first : Bool)
  | restore (days : Int)
  | savePolicy (target_class : StorageClassTier)
  deriving DecidableEq, Repr

/-- Status-feed messages.  Each constructor corresponds to exactly one
`push_status`/`format!` site of the source, carrying the data interpolated
there; the exact rendered text is presentation and not modelled. -/
inductive StatusMsg where
  | loadingBuckets
  | failedLoadBuckets
  | maskEditorActive
  | refreshingBuckets
  | bucketRefreshFailed
  | inspectFailed
  | objectMetadataRefreshed
  | loadedObjects (bucket : String)
  | storageSelectionUnavailable
  | cannotRequestRestore
  | cannotSavePolicy
  | selectTargetClassForPolicy
  | confirmRestorePrompt
  | cancelled
  | restoreFirstToggledOn
  | restoreFirstToggledOff
  | confirmTransition (target : StorageClassTier)
  | confirmSavingPolicy
  | maskEditCancelled
  | maskPatternEmpty
  | maskMatchedNone
  | maskMatched (name : String) (count : Nat)
  | clearedMask
  | noObjectsSelectedForTransition
  | restoreFailed (key : String)
  | restoreRequested (key : String)
  | transitioned (key : String) (target : StorageClassTier)
  | transitionFailed (key : String)
  | policySaved
  deriving DecidableEq, Repr

/-- `STATUS_LIMIT` (`src/app.rs`). -/
def STATUS_LIMIT : Nat := 20

/-- The `App` struct (`src/app.rs`).  `status` is the bounded ring buffer
(`VecDeque`, head = oldest).  The extra `log` field is verification
instrumentation only: it records every message ever pushed, in push order,
so that reports can be counted even after ring-buffer eviction. -/
structure App where
  buckets : List BucketInfo
  objects : List ObjectInfo
  filtered_objects : List ObjectInfo
  selected_bucket : Nat
  selected_object : Nat
  status : List StatusMsg
  active_pane : ActivePane
  mode : AppMode
  mask_draft : MaskDraft
  active_mask : Option ObjectMask
  policies : List MigrationPolicy
  pending_action : Option PendingAction
  storage_class_cursor : Nat
  storage_intent : StorageIntent
  mask_field : MaskEditorField
  log : List StatusMsg
  deriving DecidableEq, Repr

/-- `App::new` (`src/app.rs`). -/
def App.new (policies : List MigrationPolicy) : App where
  buckets := []
  objects := []
  filtered_objects := []
  selected_bucket := 0
  selected_object := 0
  status := []
  active_pane := .buckets
  mode := .browsing
  mask_draft := MaskDraft.default
  active_mask := none
  policies := policies
  pending_action := none
  storage_class_cursor := 0
  storage_intent := .transition
  mask_field := .pattern
  log := []

/-- `App::selected_bucket_name`. -/
def App.selected_bucket_name (a : App) : Option String :=
  (a.buckets.get? a.selected_bucket).map (·.name)

/-- `App::active_objects`. -/
def App.active_objects (a : App) : List ObjectInfo :=
  if a.active_mask.isSome then a.filtered_objects else a.objects

/-- `App::selected_object` (the accessor method; renamed because the Lean
field of the same name holds the index). -/
def App.selected_object_info (a : App) : Option ObjectInfo :=
  a.active_objects.get? a.selected_object

/-- `App::set_buckets`. -/
def App.set_buckets (a : App) (buckets : List BucketInfo) : App :=
  { a with buckets := buckets, selected_bucket := 0 }

/-- `App::set_objects`. -/
def App.set_objects (a : App) (objects : List ObjectInfo) : App :=
  { a with objects := objects, filtered_objects := [], selected_object := 0 }

/-- `App::push_status` (`src/app.rs`): evict the oldest entry when the ring is
at capacity, then append.  The instrumentation `log` always appends. -/
def App.push_status (a : App) (m : StatusMsg) : App :=
  let ring := if a.status.length = STATUS_LIMIT then a.status.tail else a.status
  { a with status := ring ++ [m], log := a.log ++ [m] }

/-- `App::apply_mask` (`src/app.rs`). -/
def App.apply_mask (rx : String → String → Bool) (a : App) (mask : Option ObjectMask) : App :=
  let a := { a with active_mask := mask }
  match mask with
  | some m =>
    let filtered := a.objects.filter (fun obj => m.matches rx obj.key)
    let a := { a with filtered_objects := filtered, selected_object := 0 }
    if filtered.isEmpty then
      a.push_status .maskMatchedNone
    else
      a.push_status (.maskMatched m.name filtered.length)
  | none =>
    let a := { a with filtered_objects := [] }
    a.push_status .clearedMask

/-- `App::next_pane`. -/
def App.next_pane (a : App) : App :=
  { a with active_pane :=
      match a.active_pane with
      | .buckets => .objects
      | .objects => .maskEditor
      | .maskEditor => .policies
      | .policies => .buckets }

/-- `App::previous_pane`. -/
def App.previous_pane (a : App) : App :=
  { a with active_pane :=
      match a.active_pane with
      | .buckets => .policies
      | .objects => .buckets
      | .maskEditor => .objects
      | .policies => .maskEditor }

/-- `App::cycle_mask_kind`. -/
def App.cycle_mask_kind (a : App) : App :=
  { a with mask_draft := { a.mask_draft with kind :=
      match a.mask_draft.kind with
      | .startsWith => .endsWith
      | .endsWith => .containsSub
      | .containsSub => .regexp
      | .regexp => .startsWith } }

/-- `App::cycle_mask_kind_backwards`. -/
def App.cycle_mask_kind_backwards (a : App) : App :=
  { a with mask_draft := { a.mask_draft with kind :=
      match a.mask_draft.kind with
      | .startsWith => .regexp
      | .endsWith => .startsWith
      | .containsSub => .endsWith
      | .regexp => .containsSub } }

/-- `App::toggle_mask_case`. -/
def App.toggle_mask_case (a : App) : App :=
  { a with mask_draft := { a.mask_draft with case_sensitive := !a.mask_draft.case_sensitive } }

/-- `App::set_mode`. -/
def App.set_mode (a : App) (mode : AppMode) : App :=
  { a with mode := mode }

/-- `App::focus_mask_field`. -/
def App.focus_mask_field (a : App) (field : MaskEditorField) : App :=
  { a with mask_field := field }

/-- `App::next_mask_field`. -/
def App.next_mask_field (a : App) : App :=
  { a with mask_field := a.mask_field.next }

/-- `App::previous_mask_field`. -/
def App.previous_mask_field (a : App) : App :=
  { a with mask_field := a.mask_field.previous }

/-! ## Restore-state decoder (`src/aws.rs`, `parse_restore_state`) -/

/-- Rust `u8::to_ascii_lowercase`, per character (ASCII letters only). -/
def asciiLower (c : Char) : Char :=
  if 'A' ≤ c ∧ c ≤ 'Z' then Char.ofNat (c.toNat + 32) else c

/-- One scan step of Rust `str::split(sep)`: emit the accumulated chunk when
the separator matches (greedily, left to right), otherwise advance one
character.  `acc` holds the current chunk reversed. -/
def splitGo (sep : List Char) : List Char → List Char → List (List Char)
  | [], acc => [acc.reverse]
  | c :: rest, acc =>
    if sep.isPrefixOf (c :: rest) then
      acc.reverse :: splitGo sep (rest.drop (sep.length - 1)) []
    else
      splitGo sep rest (c :: acc)
  termination_by s _ => s.length
  decreasing_by
    · simp only [List.length_cons, List.length_drop]
      omega
    · simp only [List.length_cons]
      omega

/-- Rust `str::split(sep)` on character lists (always returns at least one
chunk). -/
def splitOnSeq (sep s : List Char) : List (List Char) :=
  splitGo sep s []

/-- The token `ongoing-request="true"` (already lowercase, as compared against
the lowercased input). -/
def ongoingTrueTok : List Char := "ongoing-request=\"true\"".toList

/-- The token `ongoing-request="false"`. -/
def ongoingFalseTok : List Char := "ongoing-request=\"false\"".toList

/-- The separator `expiry-date="`. -/
def expiryDateSep : List Char := "expiry-date=\"".toList

/-- `parse_restore_state` (`src/aws.rs`).  The external RFC-2822 parser plus
UTC normalization plus RFC-3339 rendering (`chrono`) enters as the parameter
`p`: `p e = some t` models a successful parse of `e` with normalized rendering
`t`, `p e = none` a parse failure. -/
def parse_restore_state (p : List Char → Option (List Char))
    (raw : Option (List Char)) : Option RestoreState :=
  raw.map fun value =>
    let value := value.map asciiLower
    if containsSeq value ongoingTrueTok then
      .inProgress none
    else
      match (splitOnSeq expiryDateSep value).get? 1 with
      | some part =>
        let expiry := part.takeWhile (· ≠ '"')
        match p expiry with
        | some t => .inProgress (some t)
        | none => .available
      | none =>
        if containsSeq value ongoingFalseTok then .available else .expired

/-! ## The backend oracle -/

/-- Responses of the external collaborators (spec §6): the S3 backend, the
policy persistence, and the regex engine.  A `Bool` result models
success/failure of a call whose error detail only feeds display text. -/
structure Oracle where
  listBuckets : Except Unit (List BucketInfo)
  listObjects : String → Except Unit (List ObjectInfo)
  refreshObject : String → String → Except Unit ObjectInfo
  restoreOk : String → String → Int → Bool
  transitionOk : String → String → StorageClassTier → Bool
  addOk : Bool
  rx : String → String → Bool

/-- Remote / persistence calls actually issued, for tracing the orchestrator's
observable interactions. -/
inductive Event where
  | restoreCall (bucket key : String) (days : Int)
  | transitionCall (bucket key : String) (target : StorageClassTier)
  | listObjectsCall (bucket : String)
  | listBucketsCall
  | refreshObjectCall (bucket key : String)
  | storeAddCall (policy : MigrationPolicy)
  deriving DecidableEq, Repr

/-- Result of an orchestrator helper borrowing only the `App`: the mutated
state, whether a Rust `Err` was propagated (`?`), and the calls issued.
Mutations made before the error point remain visible, as they do through the
`&mut` borrow in the source. -/
structure ExecOut where
  app : App
  err : Bool
  trace : List Event
  deriving Repr

/-! ## Keyboard events (`crossterm`, as consumed by `src/tui/mod.rs`) -/

/-- The key codes the handlers inspect; everything else is `otherKey`. -/
inductive Key where
  | char (c : Char)
  | enter
  | esc
  | tab
  | backTab
  | up
  | down
  | pageUp
  | pageDown
  | home
  | endKey
  | backspace
  | left
  | right
  | otherKey
  deriving DecidableEq, Repr

/-- A key press: code plus whether CONTROL is held (the only modifier the
source consults).  Non-press events are filtered out before dispatch in the
source and are not modelled. -/
structure KeyEvent where
  code : Key
  ctrl : Bool
  deriving DecidableEq, Repr

/-! ## Selection helpers (`src/tui/mod.rs`) -/

/-- `target_count` (`src/tui/mod.rs`). -/
def target_count (a : App) : Nat :=
  if a.active_mask.isSome then
    a.filtered_objects.length
  else if a.selected_object < a.objects.length then 1 else 0

/-- `target_keys` (`src/tui/mod.rs`). -/
def target_keys (a : App) : List String :=
  if a.active_mask.isSome then
    a.filtered_objects.map (·.key)
  else
    match a.objects.get? a.selected_object with
    | some o => [o.key]
    | none => []

/-- `move_selection` (`src/tui/mod.rs`): clamp into bounds, no-op on an empty
list or a non-list pane. -/
def move_selection (a : App) (delta : Int) : App :=
  match a.active_pane with
  | .buckets =>
    if a.buckets.isEmpty then a
    else
      let len : Int := a.buckets.length
      let idx := (a.selected_bucket : Int) + delta
      let idx := if idx < 0 then 0 else idx
      let idx := if idx ≥ len then len - 1 else idx
      { a with selected_bucket := idx.toNat }
  | .objects =>
    if a.active_objects.isEmpty then a
    else
      let len : Int := a.active_objects.length
      let idx := (a.selected_object : Int) + delta
      let idx := if idx < 0 then 0 else idx
      let idx := if idx ≥ len then len - 1 else idx
      { a with selected_object := idx.toNat }
  | .maskEditor => a
  | .policies => a

/-- `jump_selection` (`src/tui/mod.rs`). -/
def jump_selection (a : App) (start : Bool) : App :=
  match a.active_pane with
  | .buckets =>
    if a.buckets.isEmpty then a
    else { a with selected_bucket := if start then 0 else a.buckets.length - 1 }
  | .objects =>
    if a.active_objects.isEmpty then a
    else { a with selected_object := if start then 0 else a.active_objects.length - 1 }
  | _ => a

/-! ## Orchestrator (`src/tui/mod.rs`) -/

/-- Insertion of one element into a key-sorted list (stable). -/
def insertByKey (o : ObjectInfo) : List ObjectInfo → List ObjectInfo
  | [] => [o]
  | x :: xs => if o.key ≤ x.key then o :: x :: xs else x :: insertByKey o xs

/-- `objects.sort_by(|a, b| a.key.cmp(&b.key))`: a stable sort by key. -/
def sortByKey : List ObjectInfo → List ObjectInfo
  | [] => []
  | x :: xs => insertByKey x (sortByKey xs)

/-- `load_objects_for_selection` (`src/tui/mod.rs`): list, sort by key,
replace the object list, re-apply the active mask, report.  A listing failure
propagates (`?`). -/
def load_objects_for_selection (O : Oracle) (a : App) : ExecOut :=
  match a.selected_bucket_name with
  | none => { app := a, err := false, trace := [] }
  | some bucket =>
    match O.listObjects bucket with
    | .error _ => { app := a, err := true, trace := [.listObjectsCall bucket] }
    | .ok objects =>
      let objects := sortByKey objects
      let a := a.set_objects objects
      let a := a.apply_mask O.rx a.active_mask
      let a := a.push_status (.loadedObjects bucket)
      { app := a, err := false, trace := [.listObjectsCall bucket] }

/-- The transition call of one key (`copy_object` with the target class) and
its per-key report (`src/tui/mod.rs`, body of the loop in
`execute_transition`). -/
def doTransitionCall (O : Oracle) (bucket : String) (target_class : StorageClassTier)
    (key : String) (a : App) : App × List Event :=
  if O.transitionOk bucket key target_class then
    (a.push_status (.transitioned key target_class), [.transitionCall bucket key target_class])
  else
    (a.push_status (.transitionFailed key), [.transitionCall bucket key target_class])

/-- One iteration of `execute_transition`'s loop: optional restore-first (7
days); on restore failure report for this key only and skip its transition
(`continue`); otherwise issue the transition call. -/
def transitionStep (O : Oracle) (bucket : String) (target_class : StorageClassTier)
    (restore_first : Bool) (key : String) (a : App) : App × List Event :=
  if restore_first then
    if O.restoreOk bucket key 7 then
      let (a, evs) := doTransitionCall O bucket target_class key a
      (a, .restoreCall bucket key 7 :: evs)
    else
      (a.push_status (.restoreFailed key), [.restoreCall bucket key 7])
  else
    doTransitionCall O bucket target_class key a

/-- The sequential per-key loop of `execute_transition`. -/
def transitionBatch (O : Oracle) (bucket : String) (target_class : StorageClassTier)
    (restore_first : Bool) : List String → App → App × List Event
  | [], a => (a, [])
  | key :: rest, a =>
    let (a1, evs1) := transitionStep O bucket target_class restore_first key a
    let (a2, evs2) := transitionBatch O bucket target_class restore_first rest a1
    (a2, evs1 ++ evs2)

/-- `execute_transition` (`src/tui/mod.rs`): requires a bucket (else `Err`),
reports a no-op on an empty target set, otherwise runs the per-key batch and
finally refreshes the object listing. -/
def execute_transition (O : Oracle) (a : App) (target_class : StorageClassTier)
    (restore_first : Bool) : ExecOut :=
  match a.selected_bucket_name with
  | none => { app := a, err := true, trace := [] }
  | some bucket =>
    let keys := target_keys a
    if keys.isEmpty then
      { app := a.push_status .noObjectsSelectedForTransition, err := false, trace := [] }
    else
      let (a1, evs) := transitionBatch O bucket target_class restore_first keys a
      let r := load_objects_for_selection O a1
      { app := r.app, err := r.err, trace := evs ++ r.trace }

/-- The sequential per-key loop of `execute_restore`. -/
def restoreBatch (O : Oracle) (bucket : String) (days : Int) :
    List String → App → App × List Event
  | [], a => (a, [])
  | key :: rest, a =>
    let a1 :=
      if O.restoreOk bucket key days then a.push_status (.restoreRequested key)
      else a.push_status (.restoreFailed key)
    let (a2, evs) := restoreBatch O bucket days rest a1
    (a2, .restoreCall bucket key days :: evs)

/-- `execute_restore` (`src/tui/mod.rs`): requires a bucket (else `Err`), then
issues one restore request per target key with per-key reporting and no
batch-level short-circuit (and no empty-set message). -/
def execute_restore (O : Oracle) (a : App) (days : Int) : ExecOut :=
  match a.selected_bucket_name with
  | none => { app := a, err := true, trace := [] }
  | some bucket =>
    let (a1, evs) := restoreBatch O bucket days (target_keys a) a
    { app := a1, err := false, trace := evs }

/-- Result of an operation borrowing the `App` and the `PolicyStore`. -/
structure StoreOut where
  app : App
  store : PolicyStore
  err : Bool
  trace : List Event
  deriving Repr

/-- `save_policy` (`src/tui/mod.rs`): re-validates bucket and active mask at
execution time (else `Err`), persists the policy, mirrors the store's
collection into the visible list, reports. -/
def save_policy (O : Oracle) (a : App) (store : PolicyStore)
    (target_class : StorageClassTier) : StoreOut :=
  match a.selected_bucket_name with
  | none => { app := a, store := store, err := true, trace := [] }
  | some bucket =>
    match a.active_mask with
    | none => { app := a, store := store, err := true, trace := [] }
    | some mask =>
      let policy : MigrationPolicy :=
        { bucket := bucket, mask := mask, target_storage_class := target_class,
          scheduled := false, schedule := none }
      if O.addOk then
        let store := { policies := store.policies ++ [policy] }
        let a := { a with policies := store.policies }
        { app := a.push_status .policySaved, store := store, err := false,
          trace := [.storeAddCall policy] }
      else
        { app := a, store := store, err := true, trace := [.storeAddCall policy] }

/-- `refresh_buckets` (`src/tui/mod.rs`). -/
def refresh_buckets (O : Oracle) (a : App) : ExecOut :=
  match O.listBuckets with
  | .ok buckets => { app := a.set_buckets buckets, err := false, trace := [.listBucketsCall] }
  | .error _ => { app := a, err := true, trace := [.listBucketsCall] }

/-- Replacement of the first object whose key matches
(`iter_mut().find(..)` in `refresh_selected_object`). -/
def replaceFirstByKey (key : String) (refreshed : ObjectInfo) :
    List ObjectInfo → List ObjectInfo
  | [] => []
  | o :: rest =>
    if o.key = key then refreshed :: rest else o :: replaceFirstByKey key refreshed rest

/-- `refresh_selected_object` (`src/tui/mod.rs`): re-fetch the selected
object's metadata, replace the first matching entry of the unfiltered list,
recompute the filtered list under the active mask, report.  All its internal
failures surface as `Err` to the caller (which catches them). -/
def refresh_selected_object (O : Oracle) (a : App) : ExecOut :=
  match a.selected_bucket_name with
  | none => { app := a, err := true, trace := [] }
  | some bucket =>
    match a.selected_object_info with
    | none => { app := a, err := true, trace := [] }
    | some obj =>
      let key := obj.key
      match O.refreshObject bucket key with
      | .error _ => { app := a, err := true, trace := [.refreshObjectCall bucket key] }
      | .ok refreshed =>
        let a := { a with objects := replaceFirstByKey key refreshed a.objects }
        let a :=
          match a.active_mask with
          | some m =>
            { a with filtered_objects := a.objects.filter (fun obj => m.matches O.rx obj.key) }
          | none => a
        { app := a.push_status .objectMetadataRefreshed, err := false,
          trace := [.refreshObjectCall bucket key] }

/-- `begin_storage_selection` (`src/tui/mod.rs`): validation (`bail!`) is
local and pure; on success record the intent, reset the cursor and enter
`SelectingStorageClass`. -/
def begin_storage_selection (a : App) (intent : StorageIntent) : Except Unit App :=
  if a.selected_bucket_name.isNone then
    .error ()
  else
    match intent with
    | .transition =>
      if target_count a = 0 then .error ()
      else
        .ok (({ a with storage_intent := intent,
                       storage_class_cursor := 0 }).set_mode .selectingStorageClass)
    | .savePolicy =>
      if a.active_mask.isNone then .error ()
      else
        .ok (({ a with storage_intent := intent,
                       storage_class_cursor := 0 }).set_mode .selectingStorageClass)

/-- `initiate_restore_flow` (`src/tui/mod.rs`): requires a bucket and a
non-empty target set; creates `PendingAction::Restore{days: 7}` and enters
`Confirming`. -/
def initiate_restore_flow (a : App) : Except Unit App :=
  if a.selected_bucket_name.isNone ∨ target_count a = 0 then
    .error ()
  else
    .ok ((({ a with pending_action := some (.restore 7) }).set_mode
            .confirming).push_status .confirmRestorePrompt)

/-! ## Mode-specific key handlers (`src/tui/mod.rs`) -/

/-- `handle_mask_editor_keys` (`src/tui/mod.rs`): pure editing of the mask
draft; Enter with a non-empty pattern compiles and applies the mask and
returns to Browsing, Enter with an empty pattern only reports. -/
def handle_mask_editor_keys (rx : String → String → Bool) (ev : KeyEvent) (a : App) : App :=
  match ev.code with
  | .esc => (a.set_mode .browsing).push_status .maskEditCancelled
  | .enter =>
    if a.mask_draft.pattern.isEmpty then
      a.push_status .maskPatternEmpty
    else
      let mask : ObjectMask :=
        { name := a.mask_draft.name, pattern := a.mask_draft.pattern,
          kind := a.mask_draft.kind, case_sensitive := a.mask_draft.case_sensitive }
      (a.apply_mask rx (some mask)).set_mode .browsing
  | .tab => a.next_mask_field
  | .backTab => a.previous_mask_field
  | .backspace =>
    match a.mask_field with
    | .name => { a with mask_draft := { a.mask_draft with name := a.mask_draft.name.dropRight 1 } }
    | .pattern =>
      { a with mask_draft := { a.mask_draft with pattern := a.mask_draft.pattern.dropRight 1 } }
    | _ => a
  | .left => if a.mask_field = .mode then a.cycle_mask_kind_backwards else a
  | .right => if a.mask_field = .mode then a.cycle_mask_kind else a
  | .char ' ' =>
    match a.mask_field with
    | .mode => a.cycle_mask_kind
    | .caseFld => a.toggle_mask_case
    | .name => { a with mask_draft := { a.mask_draft with name := a.mask_draft.name.push ' ' } }
    | .pattern =>
      { a with mask_draft := { a.mask_draft with pattern := a.mask_draft.pattern.push ' ' } }
  | .char 'c' => (a.toggle_mask_case).focus_mask_field .caseFld
  | .char ch =>
    match a.mask_field with
    | .name => { a with mask_draft := { a.mask_draft with name := a.mask_draft.name.push ch } }
    | .pattern =>
      { a with mask_draft := { a.mask_draft with pattern := a.mask_draft.pattern.push ch } }
    | .mode => a
    | .caseFld => a
  | _ => a

/-- `handle_storage_class_selector` (`src/tui/mod.rs`): cursor movement over
the selectable tiers; Enter creates the pending action for the recorded
intent and enters `Confirming`; Esc returns to Browsing. -/
def handle_storage_class_selector (ev : KeyEvent) (a : App) : App :=
  match ev.code with
  | .esc => a.set_mode .browsing
  | .up =>
    if a.storage_class_cursor > 0 then
      { a with storage_class_cursor := a.storage_class_cursor - 1 }
    else a
  | .down =>
    if a.storage_class_cursor + 1 < StorageClassTier.selectable.length then
      { a with storage_class_cursor := a.storage_class_cursor + 1 }
    else a
  | .enter =>
    match StorageClassTier.selectable.get? a.storage_class_cursor with
    | none => a
    | some selected =>
      match a.storage_intent with
      | .transition =>
        let a := { a with pending_action := some (.transition selected false) }
        (a.set_mode .confirming).push_status (.confirmTransition selected)
      | .savePolicy =>
        let a := { a with pending_action := some (.savePolicy selected) }
        (a.set_mode .confirming).push_status .confirmSavingPolicy
  | _ => a

/-- `handle_confirmation_keys` (`src/tui/mod.rs`): Esc/'n' cancel (pending
action discarded); Enter/'y' take the pending action and execute it, then
return to Browsing — unless the execution propagated `Err`, in which case the
`set_mode` line is never reached; 'o' toggles restore-first on a Transition
pending action. -/
def handle_confirmation_keys (O : Oracle) (ev : KeyEvent) (a : App)
    (store : PolicyStore) : StoreOut :=
  match ev.code with
  | .esc | .char 'n' =>
    { app := (({ a with pending_action := none }).set_mode .browsing).push_status .cancelled,
      store := store, err := false, trace := [] }
  | .enter | .char 'y' =>
    match a.pending_action with
    | some action =>
      let a := { a with pending_action := none }
      match action with
      | .transition target_class restore_first =>
        let r := execute_transition O a target_class restore_first
        if r.err then
          { app := r.app, store := store, err := true, trace := r.trace }
        else
          { app := r.app.set_mode .browsing, store := store, err := false, trace := r.trace }
      | .restore days =>
        let r := execute_restore O a days
        if r.err then
          { app := r.app, store := store, err := true, trace := r.trace }
        else
          { app := r.app.set_mode .browsing, store := store, err := false, trace := r.trace }
      | .savePolicy target_class =>
        let r := save_policy O a store target_class
        if r.err then
          { app := r.app, store := r.store, err := true, trace := r.trace }
        else
          { app := r.app.set_mode .browsing, store := r.store, err := false, trace := r.trace }
    | none =>
      { app := a.set_mode .browsing, store := store, err := false, trace := [] }
  | .char 'o' =>
    match a.pending_action with
    | some (.transition target_class restore_first) =>
      let a := { a with pending_action := some (.transition target_class (!restore_first)) }
      { app := a.push_status
          (if !restore_first then .restoreFirstToggledOn else .restoreFirstToggledOff),
        store := store, err := false, trace := [] }
    | _ => { app := a, store := store, err := false, trace := [] }
  | _ => { app := a, store := store, err := false, trace := [] }

/-- Result of `handle_key_event` (Rust `Result<bool>` plus the borrowed
state): `exit` is the `Ok(true)` quit signal, `err` an `Err` propagated to the
event loop (which then terminates with that error). -/
structure KeyOut where
  app : App
  store : PolicyStore
  exit : Bool
  err : Bool
  trace : List Event
  deriving Repr

/-- `handle_key_event` (`src/tui/mod.rs`): Ctrl+C quits from any mode; the
mode-specific handlers run next; Browsing mode then dispatches the command
keys ('q' quits, Enter on the buckets pane loads objects with `?`
propagation, etc.). -/
def handle_key_event (O : Oracle) (ev : KeyEvent) (a : App) (store : PolicyStore) : KeyOut :=
  if ev.code = .char 'c' ∧ ev.ctrl then
    { app := a, store := store, exit := true, err := false, trace := [] }
  else
    match a.mode with
    | .showingHelp =>
      let a :=
        if ev.code = .esc ∨ ev.code = .enter ∨ ev.code = .char '?' then
          a.set_mode .browsing
        else a
      { app := a, store := store, exit := false, err := false, trace := [] }
    | .viewingLog =>
      let a :=
        if ev.code = .esc ∨ ev.code = .enter ∨ ev.code = .char 'l' ∨ ev.code = .char 'L' then
          a.set_mode .browsing
        else a
      { app := a, store := store, exit := false, err := false, trace := [] }
    | .editingMask =>
      { app := handle_mask_editor_keys O.rx ev a, store := store,
        exit := false, err := false, trace := [] }
    | .selectingStorageClass =>
      { app := handle_storage_class_selector ev a, store := store,
        exit := false, err := false, trace := [] }
    | .confirming =>
      let r := handle_confirmation_keys O ev a store
      { app := r.app, store := r.store, exit := false, err := r.err, trace := r.trace }
    | .browsing =>
      match ev.code with
      | .char 'q' => { app := a, store := store, exit := true, err := false, trace := [] }
      | .tab => { app := a.next_pane, store := store, exit := false, err := false, trace := [] }
      | .backTab =>
        { app := a.previous_pane, store := store, exit := false, err := false, trace := [] }
      | .up =>
        { app := move_selection a (-1), store := store, exit := false, err := false, trace := [] }
      | .down =>
        { app := move_selection a 1, store := store, exit := false, err := false, trace := [] }
      | .pageUp =>
        { app := move_selection a (-5), store := store, exit := false, err := false, trace := [] }
      | .pageDown =>
        { app := move_selection a 5, store := store, exit := false, err := false, trace := [] }
      | .home =>
        { app := jump_selection a true, store := store, exit := false, err := false, trace := [] }
      | .endKey =>
        { app := jump_selection a false, store := store, exit := false, err := false, trace := [] }
      | .char 'm' =>
        { app := ((a.set_mode .editingMask).focus_mask_field .pattern).push_status
            .maskEditorActive,
          store := store, exit := false, err := false, trace := [] }
      | .char 'f' =>
        let a := a.push_status .refreshingBuckets
        let r := refresh_buckets O a
        let a := if r.err then r.app.push_status .bucketRefreshFailed else r.app
        { app := a, store := store, exit := false, err := false, trace := r.trace }
      | .char 'i' =>
        let r := refresh_selected_object O a
        let a := if r.err then r.app.push_status .inspectFailed else r.app
        { app := a, store := store, exit := false, err := false, trace := r.trace }
      | .enter =>
        if a.active_pane = .buckets then
          let r := load_objects_for_selection O a
          { app := r.app, store := store, exit := false, err := r.err, trace := r.trace }
        else
          { app := a, store := store, exit := false, err := false, trace := [] }
      | .char 's' =>
        match begin_storage_selection a .transition with
        | .ok a => { app := a, store := store, exit := false, err := false, trace := [] }
        | .error _ =>
          { app := a.push_status .storageSelectionUnavailable, store := store,
            exit := false, err := false, trace := [] }
      | .char 'r' =>
        match initiate_restore_flow a with
        | .ok a => { app := a, store := store, exit := false, err := false, trace := [] }
        | .error _ =>
          { app := a.push_status .cannotRequestRestore, store := store,
            exit := false, err := false, trace := [] }
      | .char 'p' =>
        match begin_storage_selection a .savePolicy with
        | .ok a =>
          { app := a.push_status .selectTargetClassForPolicy, store := store,
            exit := false, err := false, trace := [] }
        | .error _ =>
          { app := a.push_status .cannotSavePolicy, store := store,
            exit := false, err := false, trace := [] }
      | .char '?' =>
        { app := a.set_mode .showingHelp, store := store,
          exit := false, err := false, trace := [] }
      | .char 'l' =>
        { app := a.set_mode .viewingLog, store := store,
          exit := false, err := false, trace := [] }
      | .char 'L' =>
        { app := a.set_mode .viewingLog, store := store,
          exit := false, err := false, trace := [] }
      | .esc =>
        if a.active_mask.isSome then
          { app := a.apply_mask O.rx none, store := store,
            exit := false, err := false, trace := [] }
        else
          { app := a, store := store, exit := false, err := false, trace := [] }
      | _ => { app := a, store := store, exit := false, err := false, trace := [] }

/-- The state `run` (`src/tui/mod.rs`) hands to the event loop: the fresh
`App` seeded with the loaded policies, after the initial "Loading buckets…"
report and bucket refresh (whose failure is reported, not fatal). -/
def initApp (O : Oracle) (ps : List MigrationPolicy) : App :=
  let a := (App.new ps).push_status .loadingBuckets
  let r := refresh_buckets O a
  if r.err then r.app.push_status .failedLoadBuckets else r.app

/-- States the interactive loop can be in: the initial state (for any backend
responses and any loaded policy list), closed under key events that neither
quit nor propagate an error (after either of those the loop is gone). -/
inductive Reachable : App → PolicyStore → Prop where
  | init (O : Oracle) (ps : List MigrationPolicy) : Reachable (initApp O ps) ⟨ps⟩
  | step (O : Oracle) (ev : KeyEvent) (a : App) (s : PolicyStore) :
      Reachable a s →
      (handle_key_event O ev a s).err = false →
      (handle_key_event O ev a s).exit = false →
      Reachable (handle_key_event O ev a s).app (handle_key_event O ev a s).store

/-! ## Claim-side vocabulary for the restore-state decoder

These helpers phrase the decoder's observable conditions in the spec's terms
("contains an ongoing-request token, case-insensitively"; "a quoted
expiry-date token is present"), for comparison against `parse_restore_state`
above. -/

/-- The raw status string contains an ongoing-request=true token,
case-insensitively. -/
def hasOngoingTrueTok (s : List Char) : Bool :=
  containsSeq (s.map asciiLower) ongoingTrueTok

/-- The raw status string contains an ongoing-request=false token,
case-insensitively. -/
def hasOngoingFalseTok (s : List Char) : Bool :=
  containsSeq (s.map asciiLower) ongoingFalseTok

/-- The quoted expiry-date token's payload, when one is present: the text
between the opening quote of `expiry-date="` and the next quote (or the end),
case-folded as the decoder sees it. -/
def quotedExpiryTok (s : List Char) : Option (List Char) :=
  ((splitOnSeq expiryDateSep (s.map asciiLower)).get? 1).map (List.takeWhile (· ≠ '"'))

/-! ## Proof-support vocabulary for the transition batch -/

/-- The single report of one key's transition call: success or classified
failure. -/
def perKeyMsg (O : Oracle) (bucket : String) (target_class : StorageClassTier)
    (key : String) : StatusMsg :=
  if O.transitionOk bucket key target_class then .transitioned key target_class
  else .transitionFailed key

/-- The reports one key produces in a restore-first batch: its transition
report when the restore succeeded, the lone restore-failure report otherwise. -/
def perKeyMsgsRF (O : Oracle) (bucket : String) (target_class : StorageClassTier)
    (key : String) : List StatusMsg :=
  if O.restoreOk bucket key 7 then [perKeyMsg O bucket target_class key]
  else [.restoreFailed key]

/-- The calls one key produces in a restore-first batch: its restore request,
then its transition call unless the restore failed. -/
def perKeyCallsRF (O : Oracle) (bucket : String) (target_class : StorageClassTier)
    (key : String) : List Event :=
  .restoreCall bucket key 7 ::
    (if O.restoreOk bucket key 7 then [.transitionCall bucket key target_class] else [])

/-! ## Concrete fixtures for witnesses and counterexamples -/

/-- A backend where every call succeeds with the simplest possible response
(the single-object re-fetch, unused by the scenarios below, fails). -/
def Otriv : Oracle where
  listBuckets := .ok []
  listObjects := fun _ => .ok []
  refreshObject := fun _ _ => .error ()
  restoreOk := fun _ _ _ => true
  transitionOk := fun _ _ _ => true
  addOk := true
  rx := fun _ _ => false

/-- A backend whose object listing fails. -/
def Obad : Oracle := { Otriv with listObjects := fun _ => .error () }

/-- A backend whose restore call fails exactly for the key "k2". -/
def Ofail2 : Oracle := { Otriv with restoreOk := fun _ key _ => decide (key ≠ "k2") }

/-- A sample bucket. -/
def bucketB : BucketInfo := { name := "b", region := none, creation_date := none }

/-- A sample object with the given key. -/
def objK (key : String) : ObjectInfo :=
  { key := key, size := 0, last_modified := none, storage_class := .standard,
    restore_state := none }

/-- A sample mask. -/
def mask0 : ObjectMask :=
  { name := "m", pattern := "k", kind := .startsWith, case_sensitive := false }

/-- An empty policy store. -/
def store0 : PolicyStore := { policies := [] }

/-- A fresh app with no policies. -/
def appBase : App := App.new []

/-- A browsing state whose active mask matches three objects. -/
def app3 : App :=
  { appBase with
    buckets := [bucketB],
    objects := [objK "k1", objK "k2", objK "k3"],
    filtered_objects := [objK "k1", objK "k2", objK "k3"],
    active_mask := some mask0 }

/-- A state inside the mask editor. -/
def aEditing : App := { appBase with mode := .editingMask }

/-- A browsing state, no active mask, whose mask draft holds a previously
typed pattern. -/
def aDraftX : App :=
  { appBase with mask_draft := { MaskDraft.default with pattern := "x" } }

/-- A confirming state holding a Transition pending action over one object. -/
def aConfT : App :=
  { appBase with
    buckets := [bucketB],
    objects := [objK "k1"],
    mode := .confirming,
    pending_action := some (.transition .deepArchive false) }

/-- A confirming state holding a SavePolicy pending action with a selected
bucket but no active mask. -/
def aConfSave : App :=
  { appBase with
    buckets := [bucketB],
    mode := .confirming,
    pending_action := some (.savePolicy .deepArchive) }

/-- A browsing state with a selected bucket, no objects and no mask: its
resolved target key list is empty. -/
def aEmptyObjs : App := { appBase with buckets := [bucketB] }

/-- A raw restore-status string carrying both an ongoing-request=true token
(in upper case) and a quoted expiry date. -/
def sBothTok : List Char := "ONGOING-REQUEST=\"TRUE\", expiry-date=\"Fri, 21 Dec 2012 00:00:00 GMT\"".toList

/-- An RFC-2822 parser stub that fails on every input. -/
def pFail : List Char → Option (List Char) := fun _ => none

/-- The Ctrl+C key press. -/
def evCtrlC : KeyEvent := { code := .char 'c', ctrl := true }

/-- The begin-restore key press. -/
def evR : KeyEvent := { code := .char 'r', ctrl := false }

/-- A healthy backend with one bucket holding one object. -/
def OW : Oracle :=
  { Otriv with listBuckets := .ok [bucketB], listObjects := fun _ => .ok [objK "k1"] }

/-- The plain Enter key press. -/
def evEnter : KeyEvent := { code := .enter, ctrl := false }

/-! ## Frame lemmas -/

theorem push_status_pending (a : App) (m : StatusMsg) :
    (a.push_status m).pending_action = a.pending_action := rfl

theorem push_status_mode (a : App) (m : StatusMsg) :
    (a.push_status m).mode = a.mode := rfl

theorem push_status_buckets (a : App) (m : StatusMsg) :
    (a.push_status m).buckets = a.buckets := rfl

theorem push_status_selected_bucket (a : App) (m : StatusMsg) :
    (a.push_status m).selected_bucket = a.selected_bucket := rfl

theorem push_status_objects (a : App) (m : StatusMsg) :
    (a.push_status m).objects = a.objects := rfl

theorem push_status_log (a : App) (m : StatusMsg) :
    (a.push_status m).log = a.log ++ [m] := rfl

theorem push_status_bucket_name (a : App) (m : StatusMsg) :
    (a.push_status m).selected_bucket_name = a.selected_bucket_name := rfl

theorem apply_mask_pending (rx : String → String → Bool) (a : App) (mask : Option ObjectMask) :
    (a.apply_mask rx mask).pending_action = a.pending_action := by
  cases mask <;> simp [App.apply_mask, App.push_status] <;> split <;> rfl

theorem apply_mask_mode (rx : String → String → Bool) (a : App) (mask : Option ObjectMask) :
    (a.apply_mask rx mask).mode = a.mode := by
  cases mask <;> simp [App.apply_mask, App.push_status] <;> split <;> rfl

theorem apply_mask_objects (rx : String → String → Bool) (a : App) (mask : Option ObjectMask) :
    (a.apply_mask rx mask).objects = a.objects := by
  cases mask <;> simp [App.apply_mask, App.push_status] <;> split <;> rfl

theorem apply_mask_bucket_name (rx : String → String → Bool) (a : App) (mask : Option ObjectMask) :
    (a.apply_mask rx mask).selected_bucket_name = a.selected_bucket_name := by
  cases mask <;>
    simp [App.apply_mask, App.push_status, App.selected_bucket_name] <;> split <;> rfl

theorem transitionStep_pending (O : Oracle) (b : String) (tc : StorageClassTier)
    (rf : Bool) (k : String) (a : App) :
    (transitionStep O b tc rf k a).1.pending_action = a.pending_action := by
  simp only [transitionStep, doTransitionCall]
  split_ifs <;> simp [push_status_pending]

theorem transitionStep_mode (O : Oracle) (b : String) (tc : StorageClassTier)
    (rf : Bool) (k : String) (a : App) :
    (transitionStep O b tc rf k a).1.mode = a.mode := by
  simp only [transitionStep, doTransitionCall]
  split_ifs <;> simp [push_status_mode]

theorem transitionStep_bucket_name (O : Oracle) (b : String) (tc : StorageClassTier)
    (rf : Bool) (k : String) (a : App) :
    (transitionStep O b tc rf k a).1.selected_bucket_name = a.selected_bucket_name := by
  simp only [transitionStep, doTransitionCall]
  split_ifs <;> simp [push_status_bucket_name]

theorem transitionBatch_pending (O : Oracle) (b : String) (tc : StorageClassTier)
    (rf : Bool) (keys : List String) (a : App) :
    (transitionBatch O b tc rf keys a).1.pending_action = a.pending_action := by
  induction keys generalizing a with
  | nil => rfl
  | cons k rest ih => simp [transitionBatch, ih, transitionStep_pending]

theorem transitionBatch_mode (O : Oracle) (b : String) (tc : StorageClassTier)
    (rf : Bool) (keys : List String) (a : App) :
    (transitionBatch O b tc rf keys a).1.mode = a.mode := by
  induction keys generalizing a with
  | nil => rfl
  | cons k rest ih => simp [transitionBatch, ih, transitionStep_mode]

theorem transitionBatch_bucket_name (O : Oracle) (b : String) (tc : StorageClassTier)
    (rf : Bool) (keys : List String) (a : App) :
    (transitionBatch O b tc rf keys a).1.selected_bucket_name = a.selected_bucket_name := by
  induction keys generalizing a with
  | nil => rfl
  | cons k rest ih => simp [transitionBatch, ih, transitionStep_bucket_name]

theorem restoreBatch_pending (O : Oracle) (b : String) (days : Int)
    (keys : List String) (a : App) :
    (restoreBatch O b days keys a).1.pending_action = a.pending_action := by
  induction keys generalizing a with
  | nil => rfl
  | cons k rest ih => simp only [restoreBatch]; split <;> simp [ih, push_status_pending]

theorem restoreBatch_mode (O : Oracle) (b : String) (days : Int)
    (keys : List String) (a : App) :
    (restoreBatch O b days keys a).1.mode = a.mode := by
  induction keys generalizing a with
  | nil => rfl
  | cons k rest ih => simp only [restoreBatch]; split <;> simp [ih, push_status_mode]

theorem load_objects_pending (O : Oracle) (a : App) :
    (load_objects_for_selection O a).app.pending_action = a.pending_action := by
  simp only [load_objects_for_selection]
  split
  · rfl
  · split
    · rfl
    · simp [push_status_pending, apply_mask_pending, App.set_objects]

theorem load_objects_mode (O : Oracle) (a : App) :
    (load_objects_for_selection O a).app.mode = a.mode := by
  simp only [load_objects_for_selection]
  split
  · rfl
  · split
    · rfl
    · simp [push_status_mode, apply_mask_mode, App.set_objects]

theorem refresh_selected_pending (O : Oracle) (a : App) :
    (refresh_selected_object O a).app.pending_action = a.pending_action := by
  simp only [refresh_selected_object]
  split
  · rfl
  · split
    · rfl
    · split
      · rfl
      · split <;> simp [push_status_pending]

theorem refresh_selected_mode (O : Oracle) (a : App) :
    (refresh_selected_object O a).app.mode = a.mode := by
  simp only [refresh_selected_object]
  split
  · rfl
  · split
    · rfl
    · split
      · rfl
      · split <;> simp [push_status_mode]

theorem execute_transition_pending (O : Oracle) (a : App) (tc : StorageClassTier) (rf : Bool) :
    (execute_transition O a tc rf).app.pending_action = a.pending_action := by
  simp only [execute_transition]
  split
  · rfl
  · split
    · simp [push_status_pending]
    · simp [load_objects_pending, transitionBatch_pending]

theorem execute_restore_pending (O : Oracle) (a : App) (days : Int) :
    (execute_restore O a days).app.pending_action = a.pending_action := by
  simp only [execute_restore]
  split
  · rfl
  · simp [restoreBatch_pending]

theorem save_policy_pending (O : Oracle) (a : App) (s : PolicyStore) (tc : StorageClassTier) :
    (save_policy O a s tc).app.pending_action = a.pending_action := by
  simp only [save_policy]
  split
  · rfl
  · split
    · rfl
    · split <;> simp [push_status_pending]

/-! ## C5: mask round-trip -/

/-- C5: for every object list and every mask, `apply_mask(mask)` followed by
`apply_mask(none)` leaves `active_objects()` equal to the exact unfiltered
object list, in its original order (the unfiltered list itself is never
touched by filtering). -/
theorem C5_apply_mask_roundtrip (rx : String → String → Bool) (a : App) (m : ObjectMask) :
    (((a.apply_mask rx (some m)).apply_mask rx) none).active_objects = a.objects ∧
    (((a.apply_mask rx (some m)).apply_mask rx) none).objects = a.objects := by
  have hmask : (((a.apply_mask rx (some m)).apply_mask rx) none).active_mask = none := by
    simp [App.apply_mask, App.push_status]
  constructor
  · rw [App.active_objects, hmask]
    simp [apply_mask_objects]
  · simp [apply_mask_objects]

/-! ## C8: bounded ring buffer -/

/-- C8: starting from the initial empty log, the status ring never exceeds
its fixed capacity (`STATUS_LIMIT` = 20); a push at capacity evicts exactly
the oldest entry and appends the new one (FIFO, preserving the order of the
remaining entries), and a push below capacity only appends. -/
theorem C8_status_ring_bounded (ps : List MigrationPolicy) (msgs : List StatusMsg)
    (m : StatusMsg) :
    (msgs.foldl App.push_status (App.new ps)).status.length ≤ STATUS_LIMIT ∧
    ((msgs.foldl App.push_status (App.new ps)).status.length = STATUS_LIMIT →
      ((msgs.foldl App.push_status (App.new ps)).push_status m).status =
        (msgs.foldl App.push_status (App.new ps)).status.tail ++ [m]) ∧
    ((msgs.foldl App.push_status (App.new ps)).status.length < STATUS_LIMIT →
      ((msgs.foldl App.push_status (App.new ps)).push_status m).status =
        (msgs.foldl App.push_status (App.new ps)).status ++ [m]) := by
  have key : ∀ (l : List StatusMsg) (a : App), a.status.length ≤ STATUS_LIMIT →
      (l.foldl App.push_status a).status.length ≤ STATUS_LIMIT := by
    intro l
    induction l with
    | nil => intro a h; exact h
    | cons x rest ih =>
      intro a h
      apply ih
      simp only [App.push_status]
      split
      · rename_i hfull
        simp only [STATUS_LIMIT] at hfull h ⊢
        simp [List.length_tail, hfull]
      · rename_i hne
        simp only [STATUS_LIMIT] at hne h ⊢
        simp
        omega
  have hle := key msgs (App.new ps) (by simp [App.new])
  refine ⟨hle, ?_, ?_⟩
  · intro hfull
    simp [App.push_status, hfull]
  · intro hlt
    have : (msgs.foldl App.push_status (App.new ps)).status.length ≠ STATUS_LIMIT := by omega
    simp [App.push_status, this]

/-- Witness for C8 at a concrete run: after 21 pushes the ring holds exactly
20 entries, and the next push evicts the oldest. -/
theorem C8_status_ring_bounded_witness :
    (((List.replicate 21 StatusMsg.cancelled).foldl App.push_status (App.new [])).push_status
        .policySaved).status =
      ((List.replicate 21 StatusMsg.cancelled).foldl App.push_status (App.new [])).status.tail
        ++ [.policySaved] :=
  (C8_status_ring_bounded [] (List.replicate 21 .cancelled) .policySaved).2.1 (by decide)

/-! ## C10: empty target set -/

/-- C10: when the resolved target key list is empty, a confirmed Restore
pending action issues no backend calls and appends no status message at all
(the returned state is the input state), while the Transition path in the
same situation reports exactly the "No objects selected for transition"
message and likewise issues no calls. -/
theorem C10_empty_restore_silent (O : Oracle) (a : App) (b : String) (days : Int)
    (hb : a.selected_bucket_name = some b) (hk : target_keys a = []) :
    execute_restore O a days = { app := a, err := false, trace := [] } ∧
    ∀ tc rf, execute_transition O a tc rf =
      { app := a.push_status .noObjectsSelectedForTransition, err := false, trace := [] } := by
  constructor
  · simp [execute_restore, hb, hk, restoreBatch]
  · intro tc rf
    simp [execute_transition, hb, hk]

/-- Witness for C10: a state with a selected bucket, no objects and no mask. -/
theorem C10_empty_restore_silent_witness :
    execute_restore Otriv aEmptyObjs 7 = { app := aEmptyObjs, err := false, trace := [] } ∧
    execute_transition Otriv aEmptyObjs .deepArchive false =
      { app := aEmptyObjs.push_status .noObjectsSelectedForTransition, err := false,
        trace := [] } := by
  have h := C10_empty_restore_silent Otriv aEmptyObjs "b" 7 (by decide) (by decide)
  exact ⟨h.1, h.2 .deepArchive false⟩

/-! ## C7: start-mask-edit -/

/-- C7 counterexample: in a Browsing state with no active mask whose draft
holds a previously typed pattern, the start-mask-edit trigger ('m') enters
EditingMask but does NOT reset the mask draft to its default values — the
stale pattern "x" survives although the default pattern is empty. -/
theorem C7_counterexample_no_draft_reset :
    aDraftX.mode = .browsing ∧ aDraftX.active_mask = none ∧
    (handle_key_event Otriv { code := .char 'm', ctrl := false } aDraftX store0).app.mode
      = .editingMask ∧
    (handle_key_event Otriv { code := .char 'm', ctrl := false } aDraftX store0).app.mask_draft.pattern
      = "x" ∧
    MaskDraft.default.pattern = "" := by
  refine ⟨rfl, rfl, rfl, ?_, rfl⟩
  decide

/-- C7 (amended): in a Browsing state with no active mask, the
start-mask-edit trigger transitions to EditingMask and focuses the Pattern
field, leaving the mask draft unchanged (it holds its default values only as
initialized at startup, not through any reset on entry). -/
theorem C7_mask_edit_entry (O : Oracle) (a : App) (s : PolicyStore)
    (hmode : a.mode = .browsing) (hmask : a.active_mask = none) :
    (handle_key_event O { code := .char 'm', ctrl := false } a s).app.mode = .editingMask ∧
    (handle_key_event O { code := .char 'm', ctrl := false } a s).app.mask_draft
      = a.mask_draft ∧
    (handle_key_event O { code := .char 'm', ctrl := false } a s).app.mask_field
      = .pattern := by
  simp [handle_key_event, hmode, App.set_mode, App.focus_mask_field, App.push_status]

/-- Witness for C7 (amended) at the concrete stale-draft state. -/
theorem C7_mask_edit_entry_witness :
    (handle_key_event Otriv { code := .char 'm', ctrl := false } aDraftX store0).app.mode
        = .editingMask ∧
    (handle_key_event Otriv { code := .char 'm', ctrl := false } aDraftX store0).app.mask_draft
        = aDraftX.mask_draft ∧
    (handle_key_event Otriv { code := .char 'm', ctrl := false } aDraftX store0).app.mask_field
        = .pattern :=
  C7_mask_edit_entry Otriv aDraftX store0 (by decide) (by decide)

/-! ## C6: quit signals -/

/-- C6 counterexample: Ctrl+C produces the quit signal from EditingMask, a
mode other than Browsing, so it is not true that no key event exits the loop
outside Browsing. -/
theorem C6_counterexample_ctrl_c_everywhere :
    aEditing.mode = .editingMask ∧
    (handle_key_event Otriv { code := .char 'c', ctrl := true } aEditing store0).exit = true := by
  exact ⟨rfl, rfl⟩

/-- C6 (amended): the quit signal is produced only by Ctrl+C (from any mode)
or by 'q' from Browsing; no other key event in any mode returns the quit
signal.  (An `Err` propagated from a Browsing or Confirming handler can also
end the loop, with an error — see C4.) -/
theorem C6_quit_only_ctrl_c_or_browsing_q (O : Oracle) (ev : KeyEvent) (a : App)
    (s : PolicyStore) (h : (handle_key_event O ev a s).exit = true) :
    (ev.code = .char 'c' ∧ ev.ctrl = true) ∨ (a.mode = .browsing ∧ ev.code = .char 'q') := by
  by_cases hcc : ev.code = .char 'c' ∧ ev.ctrl = true
  · exact Or.inl hcc
  · right
    simp only [handle_key_event] at h
    rw [if_neg hcc] at h
    cases hm : a.mode
    · rw [hm] at h
      refine ⟨rfl, ?_⟩
      revert h
      split <;> intro h <;> (try split at h) <;> (try split at h) <;> simp_all
    · rw [hm] at h
      simp at h
    · rw [hm] at h
      simp at h
    · rw [hm] at h
      simp at h
    · rw [hm] at h
      simp at h
    · rw [hm] at h
      simp at h

/-- Witness for C6 (amended): Ctrl+C from the mask editor satisfies the first
disjunct. -/
theorem C6_quit_only_ctrl_c_or_browsing_q_witness :
    (evCtrlC.code = .char 'c' ∧ evCtrlC.ctrl = true) ∨
    (aEditing.mode = .browsing ∧ evCtrlC.code = .char 'q') :=
  C6_quit_only_ctrl_c_or_browsing_q Otriv evCtrlC aEditing store0 (by decide)

/-! ## C2: restore-state decoder -/

/-- C2: for every optional raw restore-status string the decoder returns: no
state when the input is absent; `InProgress{expiry: none}` when the string
contains an ongoing-request=true token (case-insensitively), even if an
expiry token is also present; otherwise, when a quoted expiry-date token is
present, `InProgress{expiry: some t}` with `t` the externally parsed
timestamp normalized to UTC on parse success and `Available` on parse
failure; otherwise `Available` when an ongoing-request=false token is
present; otherwise `Expired`. -/
theorem C2_parse_restore_state_cases (p : List Char → Option (List Char)) (s : List Char) :
    parse_restore_state p none = none ∧
    (hasOngoingTrueTok s = true →
      parse_restore_state p (some s) = some (.inProgress none)) ∧
    (hasOngoingTrueTok s = false →
      ∀ e, quotedExpiryTok s = some e →
        (∀ t, p e = some t →
            parse_restore_state p (some s) = some (.inProgress (some t))) ∧
        (p e = none → parse_restore_state p (some s) = some .available)) ∧
    (hasOngoingTrueTok s = false → quotedExpiryTok s = none →
        (hasOngoingFalseTok s = true → parse_restore_state p (some s) = some .available) ∧
        (hasOngoingFalseTok s = false → parse_restore_state p (some s) = some .expired)) := by
  refine ⟨rfl, ?_, ?_, ?_⟩
  · intro hT
    simp only [hasOngoingTrueTok] at hT
    simp [parse_restore_state, hT]
  · intro hF e he
    simp only [hasOngoingTrueTok] at hF
    simp only [quotedExpiryTok, Option.map_eq_some'] at he
    obtain ⟨part, hp, hpe⟩ := he
    have hp' : (splitOnSeq expiryDateSep (List.map asciiLower s))[1]? = some part := by
      simpa using hp
    have hpe' : List.takeWhile (fun x => !decide (x = '"')) part = e := by
      simpa using hpe
    constructor
    · intro t ht
      simp [parse_restore_state, hF, hp', hpe', ht]
    · intro ht
      simp [parse_restore_state, hF, hp', hpe', ht]
  · intro hF hq
    simp only [hasOngoingTrueTok] at hF
    simp only [quotedExpiryTok, Option.map_eq_none'] at hq
    have hq' : (splitOnSeq expiryDateSep (List.map asciiLower s))[1]? = none := by
      simpa using hq
    constructor
    · intro hT
      simp only [hasOngoingFalseTok] at hT
      simp [parse_restore_state, hF, hq', hT]
    · intro hT2
      simp only [hasOngoingFalseTok] at hT2
      simp [parse_restore_state, hF, hq', hT2]

/-- Witness for C2: a string carrying both an upper-case ongoing-request=true
token and a quoted expiry date decodes to `InProgress{expiry: none}`. -/
theorem C2_parse_restore_state_cases_witness :
    parse_restore_state pFail (some sBothTok) = some (.inProgress none) :=
  (C2_parse_restore_state_cases pFail sBothTok).2.1 (by decide)

/-! ## C1: restore-first batch isolation -/

theorem transitionBatch_trace_rf (O : Oracle) (b : String) (tc : StorageClassTier)
    (keys : List String) (a : App) :
    (transitionBatch O b tc true keys a).2 = keys.flatMap (perKeyCallsRF O b tc) := by
  induction keys generalizing a with
  | nil => rfl
  | cons k rest ih =>
    cases hro : O.restoreOk b k 7 <;> cases hto : O.transitionOk b k tc <;>
      simp [transitionBatch, transitionStep, doTransitionCall, perKeyCallsRF,
        List.flatMap_cons, hro, hto, ih]

theorem transitionBatch_log_rf (O : Oracle) (b : String) (tc : StorageClassTier)
    (keys : List String) (a : App) :
    (transitionBatch O b tc true keys a).1.log =
      a.log ++ keys.flatMap (perKeyMsgsRF O b tc) := by
  induction keys generalizing a with
  | nil => simp [transitionBatch]
  | cons k rest ih =>
    cases hro : O.restoreOk b k 7 <;> cases hto : O.transitionOk b k tc <;>
      simp [transitionBatch, transitionStep, doTransitionCall, perKeyMsgsRF, perKeyMsg,
        List.flatMap_cons, hro, hto, ih, push_status_log]

theorem bind_count_restoreFailed_zero (O : Oracle) (b : String) (tc : StorageClassTier)
    (keys : List String) (k : String) (hk : k ∉ keys) :
    (keys.flatMap (perKeyMsgsRF O b tc)).count (.restoreFailed k) = 0 := by
  induction keys with
  | nil => rfl
  | cons j rest ih =>
    simp only [List.mem_cons, not_or] at hk
    obtain ⟨hjk, hkr⟩ := hk
    simp only [List.flatMap_cons, List.count_append, ih hkr, Nat.add_zero]
    cases hro : O.restoreOk b j 7 <;> cases hto : O.transitionOk b j tc <;>
      simp_all [perKeyMsgsRF, perKeyMsg, List.count_cons, List.count_nil]

theorem bind_count_restoreFailed_one (O : Oracle) (b : String) (tc : StorageClassTier)
    (keys : List String) (k : String) (hnd : keys.Nodup) (hk : k ∈ keys)
    (hf : O.restoreOk b k 7 = false) :
    (keys.flatMap (perKeyMsgsRF O b tc)).count (.restoreFailed k) = 1 := by
  induction keys with
  | nil => cases hk
  | cons j rest ih =>
    simp only [List.nodup_cons] at hnd
    obtain ⟨hjr, hndr⟩ := hnd
    rcases List.mem_cons.mp hk with heq | hmem
    · subst heq
      simp only [List.flatMap_cons, List.count_append,
        bind_count_restoreFailed_zero O b tc rest k hjr]
      simp [perKeyMsgsRF, hf, List.count_cons, List.count_nil]
    · have hjk : j ≠ k := fun h => hjr (h ▸ hmem)
      simp only [List.flatMap_cons, List.count_append, ih hndr hmem]
      cases hro : O.restoreOk b j 7 <;> cases hto : O.transitionOk b j tc <;>
        simp_all [perKeyMsgsRF, perKeyMsg, List.count_cons, List.count_nil]

theorem apply_mask_log_count_restoreFailed (rx : String → String → Bool) (a : App)
    (mask : Option ObjectMask) (k : String) :
    (a.apply_mask rx mask).log.count (.restoreFailed k) = a.log.count (.restoreFailed k) := by
  cases mask <;> simp only [App.apply_mask] <;> (try split) <;>
    simp [push_status_log, List.count_append, List.count_cons, List.count_nil]

theorem load_objects_log_count_restoreFailed (O : Oracle) (a : App) (k : String) :
    (load_objects_for_selection O a).app.log.count (.restoreFailed k) =
      a.log.count (.restoreFailed k) := by
  simp only [load_objects_for_selection]
  split
  · rfl
  · split
    · rfl
    · simp [push_status_log, List.count_append, List.count_cons, List.count_nil,
        apply_mask_log_count_restoreFailed, App.set_objects]

theorem load_objects_trace (O : Oracle) (a : App) (b : String)
    (hb : a.selected_bucket_name = some b) :
    (load_objects_for_selection O a).trace = [.listObjectsCall b] := by
  simp only [load_objects_for_selection, hb]
  split <;> rfl

/-- C1: for a confirmed Transition with restore-first on a non-empty resolved
target key list (with pairwise distinct keys, as in a bucket listing), the
orchestrator issues exactly, in list order, one restore request per key
followed by that key's transition call unless its restore failed, and closes
the batch with the object-listing refresh; every key whose restore fails gets
exactly one restore-failure report and no transition call — so a restore
failure on one key never suppresses any other key's transition call. -/
theorem C1_restore_first_batch_isolation (O : Oracle) (a : App) (b : String)
    (tc : StorageClassTier)
    (hb : a.selected_bucket_name = some b)
    (hne : target_keys a ≠ [])
    (hnd : (target_keys a).Nodup) :
    (execute_transition O a tc true).trace =
      (target_keys a).flatMap (perKeyCallsRF O b tc) ++ [.listObjectsCall b] ∧
    (∀ k ∈ target_keys a, O.restoreOk b k 7 = false →
        (execute_transition O a tc true).app.log.count (.restoreFailed k) =
          a.log.count (.restoreFailed k) + 1 ∧
        ∀ tc', Event.transitionCall b k tc' ∉ (execute_transition O a tc true).trace) ∧
    (∀ k ∈ target_keys a, O.restoreOk b k 7 = true →
        Event.transitionCall b k tc ∈ (execute_transition O a tc true).trace) := by
  have hkeys : (target_keys a).isEmpty = false := by
    cases hIs : (target_keys a).isEmpty
    · rfl
    · exact absurd (List.isEmpty_iff.mp hIs) hne
  have hbatchb : (transitionBatch O b tc true (target_keys a) a).1.selected_bucket_name
      = some b := by rw [transitionBatch_bucket_name, hb]
  have htr : (execute_transition O a tc true).trace =
      (target_keys a).flatMap (perKeyCallsRF O b tc) ++ [.listObjectsCall b] := by
    simp only [execute_transition, hb, hkeys]
    rw [transitionBatch_trace_rf, load_objects_trace _ _ b hbatchb]
    simp
  have hlog : ∀ k, (execute_transition O a tc true).app.log.count (.restoreFailed k) =
      a.log.count (.restoreFailed k) +
        ((target_keys a).flatMap (perKeyMsgsRF O b tc)).count (.restoreFailed k) := by
    intro k
    simp only [execute_transition, hb, hkeys, Bool.false_eq_true, if_false]
    rw [load_objects_log_count_restoreFailed, transitionBatch_log_rf, List.count_append]
  refine ⟨htr, ?_, ?_⟩
  · intro k hk hf
    refine ⟨?_, ?_⟩
    · rw [hlog k, bind_count_restoreFailed_one O b tc _ k hnd hk hf]
    · intro tc' hmem
      rw [htr] at hmem
      rcases List.mem_append.mp hmem with hin | hin
      · rcases List.mem_flatMap.mp hin with ⟨j, hj, hjin⟩
        simp only [perKeyCallsRF, List.mem_cons] at hjin
        rcases hjin with hbad | hjin
        · cases hbad
        · revert hjin
          split
          · rename_i hro
            intro hjin
            simp only [List.mem_singleton, Event.transitionCall.injEq] at hjin
            obtain ⟨-, hkj, -⟩ := hjin
            rw [← hkj] at hro
            rw [hro] at hf
            cases hf
          · intro hjin
            cases hjin
      · simp only [List.mem_singleton] at hin
        cases hin
  · intro k hk ht
    rw [htr]
    apply List.mem_append.mpr
    left
    apply List.mem_flatMap.mpr
    refine ⟨k, hk, ?_⟩
    simp [perKeyCallsRF, ht]

/-- Witness for C1: three masked keys where the second key's restore fails —
the trace shows restore+transition for k1 and k3, restore only for k2, then
the refresh, and exactly one restore-failure report for k2. -/
theorem C1_restore_first_batch_isolation_witness :
    (execute_transition Ofail2 app3 .deepArchive true).trace =
      (target_keys app3).flatMap (perKeyCallsRF Ofail2 "b" .deepArchive)
        ++ [.listObjectsCall "b"] ∧
    (execute_transition Ofail2 app3 .deepArchive true).app.log.count (.restoreFailed "k2") =
      app3.log.count (.restoreFailed "k2") + 1 :=
  have h := C1_restore_first_batch_isolation Ofail2 app3 "b" .deepArchive
    (by decide) (by decide) (by decide)
  ⟨h.1, (h.2.1 "k2" (by decide) (by decide)).1⟩

/-! ## C9: save-policy validation -/

/-- C9 counterexample: with a selected bucket but no active mask, executing a
confirmed SavePolicy pending action fails its re-validation with a propagated
error and appends NO status message (and issues no store call); the claim's
"with a status message" does not hold on the execution-time path. -/
theorem C9_counterexample_exec_validation_silent :
    aConfSave.selected_bucket_name = some "b" ∧ aConfSave.active_mask = none ∧
    (handle_confirmation_keys Otriv evEnter aConfSave store0).err = true ∧
    (handle_confirmation_keys Otriv evEnter aConfSave store0).app.log = aConfSave.log ∧
    (handle_confirmation_keys Otriv evEnter aConfSave store0).store = store0 ∧
    (handle_confirmation_keys Otriv evEnter aConfSave store0).trace = [] := by
  decide

/-- C9 (amended): with a selected bucket and no active mask, attempting to
save a policy fails validation at entry to storage-class selection with a
status message and no mode change, and save_policy's execution-time
re-validation fails with a propagated error and no status message; in both
cases the Policy Store's collection is left unchanged. -/
theorem C9_save_policy_requires_mask (O : Oracle) (a : App) (s : PolicyStore) (b : String)
    (hb : a.selected_bucket_name = some b) (hm : a.active_mask = none) :
    (a.mode = .browsing →
      (handle_key_event O { code := .char 'p', ctrl := false } a s).store = s ∧
      (handle_key_event O { code := .char 'p', ctrl := false } a s).app.log
        = a.log ++ [.cannotSavePolicy] ∧
      (handle_key_event O { code := .char 'p', ctrl := false } a s).app.mode = .browsing ∧
      (handle_key_event O { code := .char 'p', ctrl := false } a s).err = false) ∧
    (∀ tc, save_policy O a s tc = { app := a, store := s, err := true, trace := [] }) := by
  constructor
  · intro hmode
    have hbe : begin_storage_selection a .savePolicy = .error () := by
      simp [begin_storage_selection, hb, hm]
    simp [handle_key_event, hmode, hbe, push_status_log, push_status_mode]
  · intro tc
    simp [save_policy, hb, hm]

/-- Witness for C9 (amended) at the concrete bucket-only state. -/
theorem C9_save_policy_requires_mask_witness :
    (handle_key_event Otriv { code := .char 'p', ctrl := false } aEmptyObjs store0).app.log
        = aEmptyObjs.log ++ [.cannotSavePolicy] ∧
    save_policy Otriv aEmptyObjs store0 .deepArchive
        = { app := aEmptyObjs, store := store0, err := true, trace := [] } :=
  have h := C9_save_policy_requires_mask Otriv aEmptyObjs store0 "b" (by decide) (by decide)
  ⟨(h.1 (by decide)).2.1, h.2 .deepArchive⟩

/-! ## C4: confirm execution -/

theorem execute_transition_err_false (O : Oracle) (a : App) (tc : StorageClassTier)
    (rf : Bool) (b : String) (objs : List ObjectInfo)
    (hb : a.selected_bucket_name = some b) (hl : O.listObjects b = .ok objs) :
    (execute_transition O a tc rf).err = false := by
  have hbb : (transitionBatch O b tc rf (target_keys a) a).1.selected_bucket_name = some b := by
    rw [transitionBatch_bucket_name, hb]
  simp only [execute_transition, hb]
  split
  · rfl
  · simp [load_objects_for_selection, hbb, hl]

theorem execute_restore_err_false (O : Oracle) (a : App) (days : Int) (b : String)
    (hb : a.selected_bucket_name = some b) :
    (execute_restore O a days).err = false := by
  simp [execute_restore, hb]

theorem save_policy_err_false (O : Oracle) (a : App) (s : PolicyStore)
    (tc : StorageClassTier) (b : String) (m : ObjectMask)
    (hb : a.selected_bucket_name = some b) (hm : a.active_mask = some m)
    (hadd : O.addOk = true) :
    (save_policy O a s tc).err = false := by
  simp [save_policy, hb, hm, hadd]

/-- C4 counterexample: a confirmed Transition whose post-batch listing
refresh fails propagates the error — the resulting state is NOT in Browsing
mode (the loop terminates with the error), so the mode does not return to
Browsing "regardless of the execution's outcome". -/
theorem C4_counterexample_refresh_error :
    aConfT.mode = .confirming ∧ aConfT.pending_action.isSome = true ∧
    (handle_confirmation_keys Obad evEnter aConfT store0).err = true ∧
    (handle_confirmation_keys Obad evEnter aConfT store0).app.mode = .confirming := by
  decide

/-- C4 (amended): in Confirming with a pending action, the confirm trigger
always removes the pending action and executes it; whenever the execution
returns without error the mode is left in Browsing, and per-item restore or
transition failures never produce an error (a Restore action with a selected
bucket always returns cleanly, a Transition returns cleanly whenever the
post-batch listing refresh succeeds, a SavePolicy whenever its
re-validation passes and persistence succeeds); but an execution error
(failed refresh, failed persistence, failed re-validation) propagates and the
mode is then not reset to Browsing. -/
theorem C4_confirm_executes_and_returns (O : Oracle) (ev : KeyEvent) (a : App)
    (s : PolicyStore) (act : PendingAction)
    (hmode : a.mode = .confirming)
    (hpend : a.pending_action = some act)
    (hev : ev.code = .enter ∨ ev.code = .char 'y') :
    (handle_key_event O ev a s).app.pending_action = none ∧
    ((handle_key_event O ev a s).err = false →
        (handle_key_event O ev a s).app.mode = .browsing) ∧
    (∀ days, act = .restore days → a.selected_bucket_name.isSome = true →
        (handle_key_event O ev a s).err = false) ∧
    (∀ tc rf b objs, act = .transition tc rf → a.selected_bucket_name = some b →
        O.listObjects b = .ok objs → (handle_key_event O ev a s).err = false) ∧
    (∀ tc m, act = .savePolicy tc → a.selected_bucket_name.isSome = true →
        a.active_mask = some m → O.addOk = true →
        (handle_key_event O ev a s).err = false) := by
  have hcc : ¬(ev.code = .char 'c' ∧ ev.ctrl = true) := by
    rcases hev with he | he <;> rw [he] <;> simp
  have hout : handle_key_event O ev a s =
      { app := (handle_confirmation_keys O ev a s).app,
        store := (handle_confirmation_keys O ev a s).store,
        exit := false, err := (handle_confirmation_keys O ev a s).err,
        trace := (handle_confirmation_keys O ev a s).trace } := by
    simp only [handle_key_event, if_neg hcc, hmode]
  rw [hout]
  cases act with
  | transition tc0 rf0 =>
    have hconf : handle_confirmation_keys O ev a s =
        (if (execute_transition O { a with pending_action := none } tc0 rf0).err then
          { app := (execute_transition O { a with pending_action := none } tc0 rf0).app,
            store := s, err := true,
            trace := (execute_transition O { a with pending_action := none } tc0 rf0).trace }
        else
          { app := (execute_transition O { a with pending_action := none }
              tc0 rf0).app.set_mode .browsing,
            store := s, err := false,
            trace :=
              (execute_transition O { a with pending_action := none } tc0 rf0).trace }) := by
      rcases hev with he | he <;> simp only [handle_confirmation_keys, he, hpend]
    rw [hconf]
    refine ⟨?_, ?_, ?_, ?_, ?_⟩
    · split <;> simp [execute_transition_pending, App.set_mode]
    · split
      · intro herr
        cases herr
      · intro herr
        simp [App.set_mode]
    · intro days hact
      cases hact
    · intro tc rf b objs hact hb hl
      injection hact with h1 h2
      subst h1
      subst h2
      have hb2 : ({ a with pending_action := none } : App).selected_bucket_name = some b := hb
      have := execute_transition_err_false O { a with pending_action := none } tc0 rf0 b objs
        hb2 hl
      simp [this]
    · intro tc m hact
      cases hact
  | restore days0 =>
    have hconf : handle_confirmation_keys O ev a s =
        (if (execute_restore O { a with pending_action := none } days0).err then
          { app := (execute_restore O { a with pending_action := none } days0).app,
            store := s, err := true,
            trace := (execute_restore O { a with pending_action := none } days0).trace }
        else
          { app := (execute_restore O { a with pending_action := none }
              days0).app.set_mode .browsing,
            store := s, err := false,
            trace := (execute_restore O { a with pending_action := none } days0).trace }) := by
      rcases hev with he | he <;> simp only [handle_confirmation_keys, he, hpend]
    rw [hconf]
    refine ⟨?_, ?_, ?_, ?_, ?_⟩
    · split <;> simp [execute_restore_pending, App.set_mode]
    · split
      · intro herr
        cases herr
      · intro herr
        simp [App.set_mode]
    · intro days hact hbs
      injection hact with h1
      subst h1
      obtain ⟨b, hb⟩ := Option.isSome_iff_exists.mp hbs
      have hb2 : ({ a with pending_action := none } : App).selected_bucket_name = some b := hb
      have := execute_restore_err_false O { a with pending_action := none } days0 b hb2
      simp [this]
    · intro tc rf b objs hact
      cases hact
    · intro tc m hact
      cases hact
  | savePolicy tc0 =>
    have hconf : handle_confirmation_keys O ev a s =
        (if (save_policy O { a with pending_action := none } s tc0).err then
          { app := (save_policy O { a with pending_action := none } s tc0).app,
            store := (save_policy O { a with pending_action := none } s tc0).store,
            err := true,
            trace := (save_policy O { a with pending_action := none } s tc0).trace }
        else
          { app := (save_policy O { a with pending_action := none }
              s tc0).app.set_mode .browsing,
            store := (save_policy O { a with pending_action := none } s tc0).store,
            err := false,
            trace := (save_policy O { a with pending_action := none } s tc0).trace }) := by
      rcases hev with he | he <;> simp only [handle_confirmation_keys, he, hpend]
    rw [hconf]
    refine ⟨?_, ?_, ?_, ?_, ?_⟩
    · split <;> simp [save_policy_pending, App.set_mode]
    · split
      · intro herr
        cases herr
      · intro herr
        simp [App.set_mode]
    · intro days hact
      cases hact
    · intro tc rf b objs hact
      cases hact
    · intro tc m hact hbs hm hadd
      injection hact with h1
      subst h1
      obtain ⟨b, hb⟩ := Option.isSome_iff_exists.mp hbs
      have hb2 : ({ a with pending_action := none } : App).selected_bucket_name = some b := hb
      have hm2 : ({ a with pending_action := none } : App).active_mask = some m := hm
      have := save_policy_err_false O { a with pending_action := none } s tc0 b m hb2 hm2 hadd
      simp [this]

/-- Witness for C4 (amended): a confirmed single-object Transition against a
healthy backend removes the pending action, returns cleanly and lands in
Browsing. -/
theorem C4_confirm_executes_and_returns_witness :
    (handle_key_event Otriv evEnter aConfT store0).app.pending_action = none ∧
    (handle_key_event Otriv evEnter aConfT store0).err = false ∧
    (handle_key_event Otriv evEnter aConfT store0).app.mode = .browsing :=
  have h := C4_confirm_executes_and_returns Otriv evEnter aConfT store0
    (.transition .deepArchive false) (by decide) (by decide) (Or.inl rfl)
  have herr : (handle_key_event Otriv evEnter aConfT store0).err = false :=
    h.2.2.2.1 .deepArchive false "b" [] rfl (by decide) rfl
  ⟨h.1, herr, h.2.1 herr⟩

/-! ## C3: pending-action exclusivity -/

theorem move_selection_pending (a : App) (d : Int) :
    (move_selection a d).pending_action = a.pending_action := by
  simp only [move_selection]
  split <;> (try split) <;> rfl

theorem jump_selection_pending (a : App) (st : Bool) :
    (jump_selection a st).pending_action = a.pending_action := by
  simp only [jump_selection]
  split <;> (try split) <;> rfl

theorem refresh_buckets_pending (O : Oracle) (a : App) :
    (refresh_buckets O a).app.pending_action = a.pending_action := by
  simp only [refresh_buckets]
  split <;> simp [App.set_buckets]

theorem handle_mask_editor_pending (rx : String → String → Bool) (ev : KeyEvent) (a : App) :
    (handle_mask_editor_keys rx ev a).pending_action = a.pending_action := by
  simp only [handle_mask_editor_keys]
  split <;> (try split) <;> (try split) <;>
    simp [push_status_pending, apply_mask_pending, App.set_mode, App.next_mask_field,
      App.previous_mask_field, App.cycle_mask_kind, App.cycle_mask_kind_backwards,
      App.toggle_mask_case, App.focus_mask_field]

theorem begin_storage_selection_ok (a : App) (i : StorageIntent) (r : App)
    (h : begin_storage_selection a i = .ok r) :
    r.pending_action = a.pending_action ∧ r.mode = .selectingStorageClass := by
  simp only [begin_storage_selection] at h
  split at h
  · cases h
  · split at h
    · split at h
      · cases h
      · injection h with h
        subst h
        exact ⟨rfl, rfl⟩
    · split at h
      · cases h
      · injection h with h
        subst h
        exact ⟨rfl, rfl⟩

theorem initiate_restore_flow_ok (a : App) (r : App)
    (h : initiate_restore_flow a = .ok r) :
    r.pending_action = some (.restore 7) ∧ r.mode = .confirming := by
  simp only [initiate_restore_flow] at h
  split at h
  · cases h
  · injection h with h
    subst h
    exact ⟨rfl, rfl⟩

theorem hsc_selector_inv (ev : KeyEvent) (a : App) :
    (handle_storage_class_selector ev a).pending_action = a.pending_action ∨
    ((handle_storage_class_selector ev a).pending_action.isSome = true ∧
      (handle_storage_class_selector ev a).mode = .confirming) := by
  simp only [handle_storage_class_selector]
  split
  · left; rfl
  · left
    split <;> rfl
  · left
    split <;> rfl
  · split
    · left; rfl
    · split
      · right
        exact ⟨rfl, rfl⟩
      · right
        exact ⟨rfl, rfl⟩
  · left; rfl

theorem hck_inv (O : Oracle) (ev : KeyEvent) (a : App) (s : PolicyStore)
    (hm : a.mode = .confirming) :
    (handle_confirmation_keys O ev a s).app.pending_action.isSome = true →
    (handle_confirmation_keys O ev a s).app.mode = .confirming := by
  simp only [handle_confirmation_keys]
  split
  · intro hps
    simp [App.set_mode, push_status_pending] at hps
  · intro hps
    simp [App.set_mode, push_status_pending] at hps
  · split
    · intro hps
      split at hps <;>
        (split at hps <;>
          simp [execute_transition_pending, execute_restore_pending, save_policy_pending,
            App.set_mode] at hps)
    · rename_i hpa
      intro hps
      simp [App.set_mode, hpa] at hps
  · split
    · intro hps
      split at hps <;>
        (split at hps <;>
          simp [execute_transition_pending, execute_restore_pending, save_policy_pending,
            App.set_mode] at hps)
    · rename_i hpa
      intro hps
      simp [App.set_mode, hpa] at hps
  · split
    · intro _
      simp only [push_status_mode]
      exact hm
    · intro _
      exact hm
  · intro _
    exact hm

theorem browsing_pending_cases (O : Oracle) (ev : KeyEvent) (a : App) (s : PolicyStore)
    (hm : a.mode = .browsing) (hcc : ¬(ev.code = .char 'c' ∧ ev.ctrl = true)) :
    (handle_key_event O ev a s).app.pending_action = a.pending_action ∨
    ((handle_key_event O ev a s).app.pending_action = some (.restore 7) ∧
      (handle_key_event O ev a s).app.mode = .confirming) := by
  simp only [handle_key_event, if_neg hcc, hm]
  split
  · left; rfl
  · left; simp [App.next_pane]
  · left; simp [App.previous_pane]
  · left; simp [move_selection_pending]
  · left; simp [move_selection_pending]
  · left; simp [move_selection_pending]
  · left; simp [move_selection_pending]
  · left; simp [jump_selection_pending]
  · left; simp [jump_selection_pending]
  · left
    simp [push_status_pending, App.focus_mask_field, App.set_mode]
  · left
    split <;> simp [push_status_pending, refresh_buckets_pending]
  · left
    split <;> simp [push_status_pending, refresh_selected_pending]
  · split
    · left
      simp [load_objects_pending]
    · left; rfl
  · split
    · rename_i r hr
      left
      exact (begin_storage_selection_ok a .transition r hr).1
    · left
      simp [push_status_pending]
  · split
    · rename_i r hr
      right
      have h2 := initiate_restore_flow_ok a r hr
      exact ⟨h2.1, h2.2⟩
    · left
      simp [push_status_pending]
  · split
    · rename_i r hr
      left
      simp only [push_status_pending]
      exact (begin_storage_selection_ok a .savePolicy r hr).1
    · left
      simp [push_status_pending]
  · left; simp [App.set_mode]
  · left; simp [App.set_mode]
  · left; simp [App.set_mode]
  · split
    · left
      simp [apply_mask_pending]
    · left; rfl
  · left; rfl

theorem handle_key_event_preserves_inv (O : Oracle) (ev : KeyEvent) (a : App) (s : PolicyStore)
    (h : a.pending_action.isSome = true → a.mode = .confirming) :
    (handle_key_event O ev a s).app.pending_action.isSome = true →
    (handle_key_event O ev a s).app.mode = .confirming := by
  by_cases hcc : ev.code = .char 'c' ∧ ev.ctrl = true
  · simpa [handle_key_event, hcc] using h
  · cases hm : a.mode
    · -- browsing: the pending action is none here
      have hpnone : a.pending_action = none := by
        cases hp : a.pending_action with
        | none => rfl
        | some act =>
          have := h (by simp [hp])
          rw [hm] at this
          cases this
      rcases browsing_pending_cases O ev a s hm hcc with hsame | ⟨_, hconf⟩
      · intro hps
        rw [hsame, hpnone] at hps
        cases hps
      · intro _
        exact hconf
    · -- editingMask
      have hpnone : a.pending_action = none := by
        cases hp : a.pending_action with
        | none => rfl
        | some act =>
          have := h (by simp [hp])
          rw [hm] at this
          cases this
      simp only [handle_key_event, if_neg hcc, hm]
      intro hps
      rw [handle_mask_editor_pending, hpnone] at hps
      cases hps
    · -- confirming
      simp only [handle_key_event, if_neg hcc, hm]
      exact hck_inv O ev a s hm
    · -- selectingStorageClass
      have hpnone : a.pending_action = none := by
        cases hp : a.pending_action with
        | none => rfl
        | some act =>
          have := h (by simp [hp])
          rw [hm] at this
          cases this
      simp only [handle_key_event, if_neg hcc, hm]
      rcases hsc_selector_inv ev a with hsame | ⟨_, hconf⟩
      · intro hps
        rw [hsame, hpnone] at hps
        cases hps
      · intro _
        exact hconf
    · -- showingHelp
      have hpnone : a.pending_action = none := by
        cases hp : a.pending_action with
        | none => rfl
        | some act =>
          have := h (by simp [hp])
          rw [hm] at this
          cases this
      simp only [handle_key_event, if_neg hcc, hm]
      split <;> (intro hps; simp [App.set_mode, hpnone] at hps)
    · -- viewingLog
      have hpnone : a.pending_action = none := by
        cases hp : a.pending_action with
        | none => rfl
        | some act =>
          have := h (by simp [hp])
          rw [hm] at this
          cases this
      simp only [handle_key_event, if_neg hcc, hm]
      split <;> (intro hps; simp [App.set_mode, hpnone] at hps)

theorem hck_consumes (O : Oracle) (ev : KeyEvent) (a : App) (s : PolicyStore)
    (hm : a.mode = .confirming)
    (hev : ev.code = .esc ∨ ev.code = .char 'n' ∨ ev.code = .enter ∨ ev.code = .char 'y') :
    (handle_key_event O ev a s).app.pending_action = none := by
  have hcc : ¬(ev.code = .char 'c' ∧ ev.ctrl = true) := by
    rcases hev with h | h | h | h <;> rw [h] <;> simp
  simp only [handle_key_event, if_neg hcc, hm]
  rcases hev with h | h | h | h <;> simp only [handle_confirmation_keys, h]
  · simp [App.set_mode, push_status_pending]
  · simp [App.set_mode, push_status_pending]
  · split
    · split <;> split <;>
        simp [execute_transition_pending, execute_restore_pending, save_policy_pending,
          App.set_mode]
    · rename_i hpa
      simp [App.set_mode, hpa]
  · split
    · split <;> split <;>
        simp [execute_transition_pending, execute_restore_pending, save_policy_pending,
          App.set_mode]
    · rename_i hpa
      simp [App.set_mode, hpa]

theorem initApp_pending (O : Oracle) (ps : List MigrationPolicy) :
    (initApp O ps).pending_action = none := by
  simp only [initApp]
  split <;> simp [push_status_pending, refresh_buckets_pending, App.new]

/-- C3: along every state reachable from the initial state by the key-event
step relation, at most one pending action exists (it lives in a single
`Option` slot) and it is non-none only while the mode is Confirming; from a
pending-free state, any step that creates a pending action lands in
Confirming (the tier-choice confirm and begin-restore transitions); and any
Confirm or Cancel key in Confirming leaves the pending action none. -/
theorem C3_pending_action_exclusive (a : App) (s : PolicyStore) (h : Reachable a s) :
    (a.pending_action.isSome = true → a.mode = .confirming) ∧
    (∀ O ev, a.pending_action = none →
        (handle_key_event O ev a s).app.pending_action.isSome = true →
        (handle_key_event O ev a s).app.mode = .confirming) ∧
    (∀ O ev, a.mode = .confirming →
        (ev.code = .esc ∨ ev.code = .char 'n' ∨ ev.code = .enter ∨ ev.code = .char 'y') →
        (handle_key_event O ev a s).app.pending_action = none) := by
  refine ⟨?_, ?_, ?_⟩
  · induction h with
    | init O ps =>
      intro hps
      rw [initApp_pending] at hps
      cases hps
    | step O ev a s hr hne hnx ih =>
      exact handle_key_event_preserves_inv O ev a s ih
  · intro O ev hpn
    refine handle_key_event_preserves_inv O ev a s ?_
    intro hps
    rw [hpn] at hps
    cases hps
  · intro O ev hm hev
    exact hck_consumes O ev a s hm hev

/-- Witness for C3: from the initial state, Enter loads the bucket's one
object and 'r' enters Confirming with a Restore pending action — a reachable
Confirming state — and the confirm key leaves its pending action none. -/
theorem C3_pending_action_exclusive_witness :
    (handle_key_event OW evEnter
        (handle_key_event OW evR
          (handle_key_event OW evEnter (initApp OW []) { policies := [] }).app
          (handle_key_event OW evEnter (initApp OW []) { policies := [] }).store).app
        (handle_key_event OW evR
          (handle_key_event OW evEnter (initApp OW []) { policies := [] }).app
          (handle_key_event OW evEnter (initApp OW []) { policies := [] }).store).store).app.pending_action
      = none :=
  (C3_pending_action_exclusive _ _
      (Reachable.step OW evR _ _
        (Reachable.step OW evEnter _ _ (Reachable.init OW []) (by decide) (by decide))
        (by decide) (by decide))).2.2
    OW evEnter (by decide) (Or.inr (Or.inr (Or.inl rfl)))
